import Mathlib

set_option autoImplicit false

/-!
Verification development for the Nomad agent framework slice
(`nomad-base/src/settings/mod.rs`, `nomad-base/src/macros.rs`,
`agents/kathy/src/kathy.rs`, agent `main.rs` files).

Rust computations that can fail are embedded as `RunResult`:
`panic` models a Rust panic (`expect` / `panic!`), `error` models an
`Err(Report)` / `Err(ConfigError)` value, `ok` a successful value.
The process-wide `KMS_CLIENT : OnceCell<KmsClient>` is embedded as an
explicit `Option KmsClient` state threaded through every function that
may touch it.  External crates (ethers key/address parsing, rusoto
region parsing, `AwsSigner::new`, the `nomad-ethereum` indexer
constructors) are embedded as an oracle structure `Env` recording only
their success/failure behaviour, since their code is outside this
repository slice.
-/

namespace Nomad

/-- Outcome of a fallible, possibly panicking Rust computation. -/
inductive RunResult (α : Type) where
  /-- The computation panicked (Rust `expect`, `panic!`); process aborts. -/
  | panic (msg : String)
  /-- The computation returned an `Err` value (graceful, catchable). -/
  | error (msg : String)
  /-- The computation returned `Ok`. -/
  | ok (v : α)
deriving Repr, DecidableEq

/-- Rust `str::parse::<uN>` for an unsigned integer type with maximum
value `maxVal`: an optional leading `+`, then one or more ASCII digits,
and the value must fit the type. -/
def parseRustNat (maxVal : Nat) (s : String) : Option Nat :=
  let ds := match s.data with
    | '+' :: rest => rest
    | l => l
  if ds.isEmpty then none
  else if ds.all Char.isDigit then
    let v := ds.foldl (fun a c => a * 10 + (c.toNat - 48)) 0
    if v ≤ maxVal then some v else none
  else none

/-- Maximum value of Rust `u16`. -/
def u16Max : Nat := 2 ^ 16 - 1

/-- Maximum value of Rust `u32`. -/
def u32Max : Nat := 2 ^ 32 - 1

/-- Maximum value of Rust `u64`. -/
def u64Max : Nat := 2 ^ 64 - 1

/-- Index data types (settings/mod.rs `IndexDataTypes`). -/
inductive IndexDataTypes where
  | Updates
  | UpdatesAndMessages
deriving Repr, DecidableEq

/-- The `Default` impl for `IndexDataTypes` returns `Updates`. -/
def IndexDataTypes.defaultValue : IndexDataTypes := .Updates

/-- Signer configuration (settings/mod.rs `SignerConf`): a raw hex key,
an AWS KMS reference (key id + region), or the node-signs sentinel. -/
inductive SignerConf where
  | HexKey (key : String)
  | Aws (id : String) (region : String)
  | Node
deriving Repr, DecidableEq

/-- The `Default` impl for `SignerConf` returns `Node`. -/
def SignerConf.defaultValue : SignerConf := .Node

/-- The process-wide KMS client (rusoto `KmsClient`), recording the
region it was created with (settings/mod.rs `KMS_CLIENT`). -/
structure KmsClient where
  region : String
deriving Repr, DecidableEq

/-- Resolved signers (nomad-core `Signers`): a local wallet from a hex
key, or an AWS KMS signer bound to the shared client's region and a
key id. -/
inductive Signers where
  | Local (key : String)
  | Aws (clientRegion : String) (id : String)
deriving Repr, DecidableEq

/-- A 32-byte hash value (ethers `H256`), embedded as a natural number;
`Default::default()` is zero. -/
abbrev H256 := Nat

/-- UTF-8 bytes of a Rust `String` (`as_bytes().to_vec()` / `.into()`). -/
def strBytes (s : String) : List UInt8 := s.toUTF8.toList

/-- Chain connection configuration (chains.rs `ChainConf`; only an
Ethereum variant exists in the source). -/
inductive ChainConf where
  | Ethereum (conn : String)
deriving Repr, DecidableEq

/-- Modelled from the spec: `ChainSetup` (chains.rs is not under src/).
Per the spec's data model it holds name, domain id, contract address,
finality (required confirmations), chain connection info and an
optional disabled flag; `settings/mod.rs` additionally shows the
`domain` is a string parsed as `u32`, the field access `.finality` and
the check `.disabled.is_none()`. -/
structure ChainSetup where
  name : String
  domain : String
  address : String
  finality : Nat
  chain : ChainConf
  disabled : Option Bool
deriving Repr, DecidableEq

/-- Home indexing settings (settings/mod.rs `IndexSettings`).  Integers
arrive as optional strings (configurable via env vars). -/
structure IndexSettings where
  from_ : Option String
  chunk : Option String
  data_types : IndexDataTypes
  use_timelag : Bool
deriving Repr, DecidableEq

/-- The `from` accessor: parse the optional string as `u32`, defaulting
to `0` on absence or parse failure. -/
def IndexSettings.fromHeight (s : IndexSettings) : Nat :=
  (s.from_.bind (parseRustNat u32Max)).getD 0

/-- The `chunk_size` accessor: parse the optional string as `u32`,
defaulting to `1999` on absence or parse failure. -/
def IndexSettings.chunk_size (s : IndexSettings) : Nat :=
  (s.chunk.bind (parseRustNat u32Max)).getD 1999

/-- The `timelag_on` accessor. -/
def IndexSettings.timelag_on (s : IndexSettings) : Bool :=
  s.use_timelag

/-- Base settings shared by all agents (settings/mod.rs `Settings`).
The `HashMap`s of replicas and signers are embedded as association
lists; the tracing configuration is outside the specified core
(metrics/tracing transport is a spec non-goal) and is omitted. -/
structure Settings where
  db : String
  metrics : Option String
  index : IndexSettings
  home : ChainSetup
  replicas : List (String × ChainSetup)
  signers : List (String × SignerConf)
deriving Repr, DecidableEq

/-- A contract locator (nomad-core `ContractLocator`): chain name,
parsed domain id, parsed contract address. -/
structure ContractLocator where
  name : String
  domain : Nat
  address : String
deriving Repr, DecidableEq

/-- Oracle for code outside this repository slice: each field records
the success/failure behaviour of an external call. -/
structure Env where
  /-- ethers: parsing a hex private key into a local wallet
  (`key.as_ref().parse()` in `try_into_signer`); `some` is the wallet. -/
  parseWallet : String → Option String
  /-- rusoto: whether `region.parse::<Region>()` succeeds
  (`expect("invalid region")` panics otherwise). -/
  regionValid : String → Bool
  /-- ethers: whether `AwsSigner::new(client, id, 0)` succeeds, given
  the client's region and the key id. -/
  awsSignerOk : String → String → Bool
  /-- ethers: parsing a contract address (`address.parse::<Address>()?`). -/
  parseAddress : String → Option String
  /-- nomad-ethereum: whether `make_home_indexer` succeeds. -/
  mkHomeIndexerOk : String → ContractLocator → Option Signers → Option Nat → Nat → Nat → Bool
  /-- nomad-ethereum: whether `make_replica_indexer` succeeds. -/
  mkReplicaIndexerOk : String → ContractLocator → Option Signers → Option Nat → Nat → Nat → Bool
  /-- chains.rs: whether `ChainSetup::try_into_home` /
  `try_into_replica` chain-glue construction succeeds for a setup. -/
  chainConnOk : ChainSetup → Bool
  /-- nomad-base metrics: whether `CoreMetrics::new` succeeds (`?`). -/
  coreMetricsOk : Bool
  /-- nomad-base db: whether `DB::from_path` succeeds for a path (`?`). -/
  dbOk : String → Bool
  /-- prometheus: whether registering the `messages_dispatched_count`
  metric succeeds (`expect` panics otherwise, in `Kathy::new`). -/
  metricRegisterOk : Bool
  /-- home contract: whether `home.dispatch(&message)` succeeds. -/
  dispatchOk : Nat → H256 → List UInt8 → Bool

/-- Resolve a signer configuration (settings/mod.rs
`SignerConf::try_into_signer`).  A hex key parses to a local wallet
(parse failure is an error).  An AWS reference runs
`KMS_CLIENT.get_or_init(...)`: with the cell already filled the cached
client is used as-is; with the cell empty a client is created from the
call's own region (`region.parse().expect("invalid region")` panics on
an invalid region and leaves the cell empty), and then
`AwsSigner::new(client, id, 0).await?` may still fail.  The `Node`
variant always fails (`bail!("Node signer")`). -/
def SignerConf.try_into_signer (conf : SignerConf) (env : Env)
    (st : Option KmsClient) : RunResult Signers × Option KmsClient :=
  match conf with
  | .HexKey key =>
    match env.parseWallet key with
    | some w => (.ok (.Local w), st)
    | none => (.error "invalid hex key", st)
  | .Aws id region =>
    match st with
    | some client =>
      (if env.awsSignerOk client.region id then .ok (.Aws client.region id)
       else .error "aws signer", some client)
    | none =>
      if env.regionValid region then
        let client : KmsClient := ⟨region⟩
        (if env.awsSignerOk client.region id then .ok (.Aws client.region id)
         else .error "aws signer", some client)
      else (.panic "invalid region", none)
  | .Node => (.error "Node signer", st)

/-- Look up a signer by name (settings/mod.rs `Settings::get_signer`).
A missing entry yields `None` (via `?` on the map lookup), and a
resolution error is swallowed into `None` by `.ok()`; only panics
propagate. -/
def Settings.get_signer (s : Settings) (env : Env) (name : String)
    (st : Option KmsClient) : RunResult (Option Signers) × Option KmsClient :=
  match s.signers.lookup name with
  | none => (.ok none, st)
  | some conf =>
    match conf.try_into_signer env st with
    | (.panic m, st') => (.panic m, st')
    | (.error _, st') => (.ok none, st')
    | (.ok sg, st') => (.ok (some sg), st')

/-- Optional indexing timelag for the home (settings/mod.rs
`Settings::home_timelag`): the home's own finality when timelag is on. -/
def Settings.home_timelag (s : Settings) : Option Nat :=
  if s.index.timelag_on then some s.home.finality else none

/-- Optional indexing timelag for a replica (settings/mod.rs
`Settings::replica_timelag`): when timelag is on, the named replica's
own finality, looked up with `.expect("!replica")` (panics when the
name is not a key of the replicas map). -/
def Settings.replica_timelag (s : Settings) (replica_name : String) :
    RunResult (Option Nat) :=
  if s.index.timelag_on then
    match s.replicas.lookup replica_name with
    | some setup => .ok (some setup.finality)
    | none => .panic "!replica"
  else .ok none

/-- Modelled from the spec: the live home contract handle (`Homes`;
chains.rs and the contract wrappers are not under src/).  Per the
spec's assembly pipeline it is built from the chain setup, the
optionally resolved signer and the optional timelag; the signer
parameter's type in `Settings::try_home` is `Option<Signers>`, so an
absent signer is accepted as-is. -/
structure Homes where
  name : String
  signer : Option Signers
  timelag : Option Nat
deriving Repr, DecidableEq

/-- Modelled from the spec: the live replica contract handle
(`Replicas`), analogous to `Homes`. -/
structure Replicas where
  name : String
  signer : Option Signers
  timelag : Option Nat
deriving Repr, DecidableEq

/-- Modelled from the spec: `ChainSetup::try_into_home` (chains.rs is
not under src/) builds the home handle from the setup, the optional
signer and the optional timelag; construction is fallible chain glue
(oracle `Env.chainConnOk`) and does not require a signer. -/
def ChainSetup.try_into_home (setup : ChainSetup) (signer : Option Signers)
    (timelag : Option Nat) (env : Env) : RunResult Homes :=
  if env.chainConnOk setup then .ok ⟨setup.name, signer, timelag⟩
  else .error "home connection"

/-- Modelled from the spec: `ChainSetup::try_into_replica`, analogous
to `try_into_home`. -/
def ChainSetup.try_into_replica (setup : ChainSetup) (signer : Option Signers)
    (timelag : Option Nat) (env : Env) : RunResult Replicas :=
  if env.chainConnOk setup then .ok ⟨setup.name, signer, timelag⟩
  else .error "replica connection"

/-- An Ethereum indexer built by nomad-ethereum's `make_home_indexer` /
`make_replica_indexer`, recording its construction arguments. -/
structure EthereumIndexer where
  conn : String
  locator : ContractLocator
  signer : Option Signers
  timelag : Option Nat
  fromHeight : Nat
  chunkSize : Nat
deriving Repr, DecidableEq

/-- A ContractSync for one chain (`ContractSync::new` arguments):
agent name, contract (chain) name — which also keys the `NomadDB` —
the indexer, the index settings and the chain's finality. -/
structure ContractSync (α : Type) where
  agent_name : String
  contract_name : String
  indexer : α
  index_settings : IndexSettings
  finality : Nat
deriving Repr, DecidableEq

/-- A home handle bundled with its ContractSync (`CachingHome::new`). -/
structure CachingHome where
  home : Homes
  sync : ContractSync EthereumIndexer
deriving Repr, DecidableEq

/-- A replica handle bundled with its ContractSync
(`CachingReplica::new`). -/
structure CachingReplica where
  replica : Replicas
  sync : ContractSync EthereumIndexer
deriving Repr, DecidableEq

/-- Try to get a `Homes` object (settings/mod.rs `Settings::try_home`):
resolve the (optional) signer for the home's name, compute the home
timelag, and construct the handle. -/
def Settings.try_home (s : Settings) (env : Env) (st : Option KmsClient) :
    RunResult Homes × Option KmsClient :=
  match s.get_signer env s.home.name st with
  | (.panic m, st') => (.panic m, st')
  | (.error m, st') => (.error m, st')
  | (.ok signer, st') => (s.home.try_into_home signer s.home_timelag env, st')

/-- Try to get an indexer for the home (settings/mod.rs
`Settings::try_home_indexer`): resolve the signer and timelag, then for
the Ethereum chain conf parse the domain (`expect("invalid uint")`
panics) and the address (`?` errors) and call `make_home_indexer`. -/
def Settings.try_home_indexer (s : Settings) (env : Env)
    (st : Option KmsClient) : RunResult EthereumIndexer × Option KmsClient :=
  match s.get_signer env s.home.name st with
  | (.panic m, st') => (.panic m, st')
  | (.error m, st') => (.error m, st')
  | (.ok signer, st') =>
    let timelag := s.home_timelag
    match s.home.chain with
    | .Ethereum conn =>
      match parseRustNat u32Max s.home.domain with
      | none => (.panic "invalid uint", st')
      | some domain =>
        match env.parseAddress s.home.address with
        | none => (.error "invalid address", st')
        | some addr =>
          let locator : ContractLocator := ⟨s.home.name, domain, addr⟩
          (if env.mkHomeIndexerOk conn locator signer timelag
              s.index.fromHeight s.index.chunk_size then
            .ok ⟨conn, locator, signer, timelag, s.index.fromHeight,
              s.index.chunk_size⟩
          else .error "make_home_indexer", st')

/-- Try to get a home ContractSync (settings/mod.rs
`Settings::try_home_contract_sync`). -/
def Settings.try_home_contract_sync (s : Settings) (env : Env)
    (agent_name : String) (st : Option KmsClient) :
    RunResult (ContractSync EthereumIndexer) × Option KmsClient :=
  let finality := s.home.finality
  let index_settings := s.index
  match s.try_home_indexer env st with
  | (.panic m, st') => (.panic m, st')
  | (.error m, st') => (.error m, st')
  | (.ok indexer, st') =>
    (.ok ⟨agent_name, s.home.name, indexer, index_settings, finality⟩, st')

/-- Try to get a CachingHome (settings/mod.rs
`Settings::try_caching_home`): the home handle, then its ContractSync. -/
def Settings.try_caching_home (s : Settings) (env : Env)
    (agent_name : String) (st : Option KmsClient) :
    RunResult CachingHome × Option KmsClient :=
  match s.try_home env st with
  | (.panic m, st') => (.panic m, st')
  | (.error m, st') => (.error m, st')
  | (.ok home, st') =>
    match s.try_home_contract_sync env agent_name st' with
    | (.panic m, st'') => (.panic m, st'')
    | (.error m, st'') => (.error m, st'')
    | (.ok contract_sync, st'') => (.ok ⟨home, contract_sync⟩, st'')

/-- Try to get a `Replicas` object (settings/mod.rs
`Settings::try_replica`): look the setup up with `.expect("!replica")`
(panics on an absent name), resolve the signer, compute the replica
timelag, and construct the handle. -/
def Settings.try_replica (s : Settings) (env : Env) (replica_name : String)
    (st : Option KmsClient) : RunResult Replicas × Option KmsClient :=
  match s.replicas.lookup replica_name with
  | none => (.panic "!replica", st)
  | some replica_setup =>
    match s.get_signer env replica_name st with
    | (.panic m, st') => (.panic m, st')
    | (.error m, st') => (.error m, st')
    | (.ok signer, st') =>
      match s.replica_timelag replica_name with
      | .panic m => (.panic m, st')
      | .error m => (.error m, st')
      | .ok opt_replica_timelag =>
        (replica_setup.try_into_replica signer opt_replica_timelag env, st')

/-- Try to get an indexer for a replica (settings/mod.rs
`Settings::try_replica_indexer`), given its setup: resolve the signer
and timelag for `setup.name`, parse domain/address, call
`make_replica_indexer`. -/
def Settings.try_replica_indexer (s : Settings) (env : Env)
    (setup : ChainSetup) (st : Option KmsClient) :
    RunResult EthereumIndexer × Option KmsClient :=
  match s.get_signer env setup.name st with
  | (.panic m, st') => (.panic m, st')
  | (.error m, st') => (.error m, st')
  | (.ok signer, st') =>
    match s.replica_timelag setup.name with
    | .panic m => (.panic m, st')
    | .error m => (.error m, st')
    | .ok timelag =>
      match setup.chain with
      | .Ethereum conn =>
        match parseRustNat u32Max setup.domain with
        | none => (.panic "invalid uint", st')
        | some domain =>
          match env.parseAddress setup.address with
          | none => (.error "invalid address", st')
          | some addr =>
            let locator : ContractLocator := ⟨setup.name, domain, addr⟩
            (if env.mkReplicaIndexerOk conn locator signer timelag
                s.index.fromHeight s.index.chunk_size then
              .ok ⟨conn, locator, signer, timelag, s.index.fromHeight,
                s.index.chunk_size⟩
            else .error "make_replica_indexer", st')

/-- Try to get a replica ContractSync (settings/mod.rs
`Settings::try_replica_contract_sync`): the setup is looked up with
`.expect("!replica")` (twice in the source, same key, so one lookup
here), the sync is keyed by the setup's embedded name. -/
def Settings.try_replica_contract_sync (s : Settings) (env : Env)
    (replica_name : String) (agent_name : String) (st : Option KmsClient) :
    RunResult (ContractSync EthereumIndexer) × Option KmsClient :=
  match s.replicas.lookup replica_name with
  | none => (.panic "!replica", st)
  | some replica_setup =>
    let finality := replica_setup.finality
    let index_settings := s.index
    match s.try_replica_indexer env replica_setup st with
    | (.panic m, st') => (.panic m, st')
    | (.error m, st') => (.error m, st')
    | (.ok indexer, st') =>
      (.ok ⟨agent_name, replica_setup.name, indexer, index_settings,
        finality⟩, st')

/-- Try to get a CachingReplica (settings/mod.rs
`Settings::try_caching_replica`): the replica handle, then its
ContractSync. -/
def Settings.try_caching_replica (s : Settings) (env : Env)
    (replica_name : String) (agent_name : String) (st : Option KmsClient) :
    RunResult CachingReplica × Option KmsClient :=
  match s.try_replica env replica_name st with
  | (.panic m, st') => (.panic m, st')
  | (.error m, st') => (.error m, st')
  | (.ok replica, st') =>
    match s.try_replica_contract_sync env replica_name agent_name st' with
    | (.panic m, st'') => (.panic m, st'')
    | (.error m, st'') => (.error m, st'')
    | (.ok contract_sync, st'') => (.ok ⟨replica, contract_sync⟩, st'')

/-- The loop body of `Settings::try_caching_replicas` over the
already-filtered (enabled-only) replica entries.  For each `(k, v)`:
bail with a descriptive error when `k ≠ v.name`, otherwise build the
caching replica and insert it keyed by `v.name`.  The third component
is a ghost trace of the keys for which a build was attempted (i.e. for
which `try_caching_replica` — signer resolution, indexer, ContractSync
— was invoked); it is not part of the Rust return value. -/
def cachingReplicasLoop (s : Settings) (env : Env) (agent_name : String) :
    List (String × ChainSetup) → List (String × CachingReplica) →
    Option KmsClient →
    RunResult (List (String × CachingReplica)) × Option KmsClient × List String
  | [], acc, st => (.ok acc, st, [])
  | (k, v) :: rest, acc, st =>
    if k ≠ v.name then
      (.error ("Replica key does not match replica name:\n key: " ++ k ++
        "  name: " ++ v.name), st, [])
    else
      match s.try_caching_replica env k agent_name st with
      | (.panic m, st') => (.panic m, st', [k])
      | (.error m, st') => (.error m, st', [k])
      | (.ok caching_replica, st') =>
        match cachingReplicasLoop s env agent_name rest
            (acc ++ [(v.name, caching_replica)]) st' with
        | (res, st'', built) => (res, st'', k :: built)

/-- Try to get all caching replicas (settings/mod.rs
`Settings::try_caching_replicas`): iterate over the replica entries
whose `disabled` is `None`, checking key/name agreement and building
each enabled replica. -/
def Settings.try_caching_replicas (s : Settings) (env : Env)
    (agent_name : String) (st : Option KmsClient) :
    RunResult (List (String × CachingReplica)) × Option KmsClient × List String :=
  cachingReplicasLoop s env agent_name
    (s.replicas.filter (fun p => p.2.disabled.isNone)) [] st

/-- Process-wide agent state (agent.rs `AgentCore`, whose fields are
visible from its construction in `Settings::try_into_core`): the
caching home, the replica map, the db path, a clone of the settings
and the index settings.  The metrics handle is external. -/
structure AgentCore where
  home : CachingHome
  replicas : List (String × CachingReplica)
  db : String
  settings : Settings
  indexer : IndexSettings
deriving Repr, DecidableEq

/-- Try to generate an agent core (settings/mod.rs
`Settings::try_into_core`), in order: build the metrics registry — the
optional port is parsed with `.expect("metrics port must be u16")`
(panics on a bad port) and `CoreMetrics::new` is fallible (`?`) — open
the database (`DB::from_path?`), build the caching home, build the
caching replicas, assemble the core.  Failure at any step propagates. -/
def Settings.try_into_core (s : Settings) (env : Env) (name : String)
    (st : Option KmsClient) : RunResult AgentCore × Option KmsClient :=
  let port : RunResult (Option Nat) :=
    match s.metrics with
    | none => .ok none
    | some v =>
      match parseRustNat u16Max v with
      | none => .panic "metrics port must be u16"
      | some p => .ok (some p)
  match port with
  | .panic m => (.panic m, st)
  | .error m => (.error m, st)
  | .ok _ =>
    if !env.coreMetricsOk then (.error "CoreMetrics::new", st)
    else if !env.dbOk s.db then (.error "DB::from_path", st)
    else
      match s.try_caching_home env name st with
      | (.panic m, st') => (.panic m, st')
      | (.error m, st') => (.error m, st')
      | (.ok home, st') =>
        match s.try_caching_replicas env name st' with
        | (.panic m, st'', _) => (.panic m, st'')
        | (.error m, st'', _) => (.error m, st'')
        | (.ok replicas, st'', _) =>
          (.ok ⟨home, replicas, s.db, s, s.index⟩, st'')

/-- Agent kinds named in the `decl_settings!` policy match
(macros.rs lines 181–203). -/
inductive AgentName where
  | Kathy
  | Updater
  | Relayer
  | Processor
  | Watcher
deriving Repr, DecidableEq

/-- Set agent-specific index data types (settings/mod.rs
`Settings::set_index_data_types`). -/
def Settings.set_index_data_types (s : Settings) (d : IndexDataTypes) :
    Settings :=
  { s with index := { s.index with data_types := d } }

/-- Set agent-specific timelag on/off (settings/mod.rs
`Settings::set_use_timelag`). -/
def Settings.set_use_timelag (s : Settings) (b : Bool) : Settings :=
  { s with index := { s.index with use_timelag := b } }

/-- The per-agent-kind fixed index policy applied by `decl_settings!`
after all configuration sources are merged (macros.rs lines 181–203). -/
def applyAgentPolicy : AgentName → Settings → Settings
  | .Kathy, s => (s.set_index_data_types .Updates).set_use_timelag false
  | .Updater, s => (s.set_index_data_types .Updates).set_use_timelag true
  | .Relayer, s => (s.set_index_data_types .Updates).set_use_timelag false
  | .Processor, s =>
    (s.set_index_data_types .UpdatesAndMessages).set_use_timelag true
  | .Watcher, s => (s.set_index_data_types .Updates).set_use_timelag false

/-- The tail of the `decl_settings!`-generated `new()` (macros.rs lines
160–206): the merge of the layered configuration sources is an external
collaborator whose outcome is the `merged` argument (an error when any
source fails to load or deserialize); on success the per-agent fixed
policy is applied last, after all sources. -/
def declSettingsNew (agent : AgentName) (merged : RunResult Settings) :
    RunResult Settings :=
  match merged with
  | .panic m => .panic m
  | .error m => .error m
  | .ok s => .ok (applyAgentPolicy agent s)

/-- Randomness oracle for Kathy's generator (`thread_rng` /
`H256::random`): an alphanumeric string of a requested length and a
random 32-byte value. -/
structure Rng where
  randString : Nat → String
  randH256 : H256

/-- Kathy's message generator (kathy.rs `ChatGenerator`). -/
inductive ChatGenerator where
  | Static (recipient : H256) (message : String)
  | OrderedList (messages : List String) (counter : Nat)
  | Random (length : Nat)
  | Default
deriving Repr, DecidableEq

/-- The `Default` impl for `ChatGenerator` returns `Default`. -/
def ChatGenerator.defaultValue : ChatGenerator := .Default

/-- Draw a recipient (kathy.rs `ChatGenerator::gen_recipient`): zero
for `Default` and `OrderedList`, the fixed recipient for `Static`, a
random value for `Random`.  No variant mutates the generator. -/
def ChatGenerator.gen_recipient (g : ChatGenerator) (rng : Rng) : H256 :=
  match g with
  | .Default => 0
  | .Static recipient _ => recipient
  | .OrderedList _ _ => 0
  | .Random _ => rng.randH256

/-- Draw a message body (kathy.rs `ChatGenerator::gen_chat`), returning
the drawn body and the (possibly mutated) generator: `Default` yields
an empty body, `Static` its fixed message's bytes, `OrderedList` the
message at the cursor (advancing the cursor) or `None` once the cursor
reaches the length, `Random` a fresh random string of the fixed
length. -/
def ChatGenerator.gen_chat (g : ChatGenerator) (rng : Rng) :
    Option (List UInt8) × ChatGenerator :=
  match g with
  | .Default => (some [], g)
  | .Static _ message => (some (strBytes message), g)
  | .OrderedList messages counter =>
    if h : messages.length ≤ counter then (none, g)
    else
      (some (strBytes (messages.get ⟨counter, by omega⟩)),
        .OrderedList messages (counter + 1))
  | .Random length => (some (strBytes (rng.randString length)), g)

/-- Iterate `gen_chat` a given number of times, collecting the drawn
bodies in order. -/
def ChatGenerator.gen_chat_iter (g : ChatGenerator) (rng : Rng) :
    Nat → List (Option (List UInt8)) × ChatGenerator
  | 0 => ([], g)
  | n + 1 =>
    let (b, g') := g.gen_chat rng
    let (rest, g'') := g'.gen_chat_iter rng n
    (b :: rest, g'')

/-- A cross-chain message (nomad-core `Message`): destination domain,
recipient, body. -/
structure Message where
  destination : Nat
  recipient : H256
  body : List UInt8
deriving Repr, DecidableEq

/-- Outcome of the channel task's loop. -/
inductive LoopOutcome where
  /-- The task returned `Ok(())` (generator exhausted). -/
  | ok
  /-- The task returned an error (`?` on a failed dispatch). -/
  | fail (msg : String)
  /-- The supplied fuel ran out with the loop still running (the Rust
  loop is infinite for non-exhausting generators). -/
  | spin
deriving Repr, DecidableEq

/-- Observable trace of one Kathy channel task: the messages for which
a home dispatch was attempted, the number of `messages_dispatched`
counter increments, and the task outcome. -/
structure KathyRunTrace where
  dispatched : List Message
  counterIncs : Nat
  outcome : LoopOutcome
deriving Repr, DecidableEq

/-- The Kathy channel task body (kathy.rs `Kathy::run`, lines 84–129),
fuel-indexed since the Rust loop is unbounded.  Each iteration draws a
body and a recipient; an absent body terminates the task successfully;
otherwise the message is dispatched to the home under the shared home
lock (the lock serializes dispatches but does not change this
single-channel trace), a failed dispatch terminates the task with the
error, a successful one increments the counter and the loop continues
after the interval sleep. -/
def kathyRun (env : Env) (rng : Rng) (destination : Nat) :
    ChatGenerator → Nat → KathyRunTrace
  | _, 0 => ⟨[], 0, .spin⟩
  | generator, fuel + 1 =>
    let (msg, generator') := generator.gen_chat rng
    let recipient := generator'.gen_recipient rng
    match msg with
    | some body =>
      let message : Message := ⟨destination, recipient, body⟩
      if env.dispatchOk destination recipient body then
        let rest := kathyRun env rng destination generator' fuel
        ⟨message :: rest.dispatched, rest.counterIncs + 1, rest.outcome⟩
      else ⟨[message], 0, .fail "dispatch"⟩
    | none => ⟨[], 0, .ok⟩

/-- Modelled from the spec: Kathy's agent-specific settings
(`agents/kathy/src/settings.rs` is not under src/).  Per the
configuration surface and the uses in `Kathy::from_settings` it carries
the base `Settings`, the interval as a string (macros.rs: integers are
configured as strings and parsed in `from_settings`), and the chat
configuration, convertible into a `ChatGenerator`. -/
structure KathySettings where
  base : Settings
  interval : String
  chat : ChatGenerator

/-- The Kathy agent state built by `Kathy::new` (kathy.rs): the parsed
interval, the generator and the agent core (the home lock and metric
handles are runtime objects). -/
structure KathyAgent where
  interval : Nat
  generator : ChatGenerator
  core : AgentCore
deriving Repr, DecidableEq

/-- Build the Kathy agent from settings (kathy.rs
`Kathy::from_settings` + `Kathy::new`).  `Self::new`'s arguments are
evaluated left to right: `settings.interval.parse().expect("invalid
u64")` panics on a bad interval, `settings.chat.into()` converts the
chat configuration, and `settings.base.try_into_core("kathy").await?`
propagates any core-assembly failure.  Inside `Kathy::new` the
`messages_dispatched_count` metric registration uses `expect` (panics
on failure). -/
def kathyFromSettings (ks : KathySettings) (env : Env)
    (st : Option KmsClient) : RunResult KathyAgent × Option KmsClient :=
  match parseRustNat u64Max ks.interval with
  | none => (.panic "invalid u64", st)
  | some interval =>
    match ks.base.try_into_core env "kathy" st with
    | (.panic m, st') => (.panic m, st')
    | (.error m, st') => (.error m, st')
    | (.ok core, st') =>
      if env.metricRegisterOk then (.ok ⟨interval, ks.chat, core⟩, st')
      else
        (.panic "failed to register messages_dispatched_count metric", st')

/-! Concrete fixtures used by witnesses and counterexamples. -/

/-- A benign oracle: every external call succeeds. -/
def okEnv : Env where
  parseWallet := fun k => some k
  regionValid := fun _ => true
  awsSignerOk := fun _ _ => true
  parseAddress := fun a => some a
  mkHomeIndexerOk := fun _ _ _ _ _ _ => true
  mkReplicaIndexerOk := fun _ _ _ _ _ _ => true
  chainConnOk := fun _ => true
  coreMetricsOk := true
  dbOk := fun _ => true
  metricRegisterOk := true
  dispatchOk := fun _ _ _ => true

/-- A fixed randomness oracle. -/
def fixedRng : Rng where
  randString := fun _ => ""
  randH256 := 0

/-- A sample home chain setup. -/
def chainA : ChainSetup :=
  ⟨"alpha", "1000", "0xaa", 5, .Ethereum "connA", none⟩

/-- A sample enabled replica chain setup. -/
def chainB : ChainSetup :=
  ⟨"beta", "2000", "0xbb", 7, .Ethereum "connB", none⟩

/-- A sample disabled replica chain setup. -/
def chainC : ChainSetup :=
  ⟨"gamma", "3000", "0xcc", 9, .Ethereum "connC", some true⟩

/-- Sample settings with timelag enabled and one enabled replica. -/
def sampleSettings : Settings :=
  ⟨"dbpath", none, ⟨none, none, .Updates, true⟩, chainA,
   [("beta", chainB)], []⟩

/-- Settings as merged from user configuration, deliberately opposite
to both the Kathy and the Processor policy on one field each. -/
def mergedUserSettings : Settings :=
  ⟨"dbpath", none, ⟨none, none, .UpdatesAndMessages, true⟩, chainA,
   [("beta", chainB)], []⟩

/-- Oracle under which `AwsSigner::new` fails for key id "id1" and
succeeds for key id "id2". -/
def c2Env : Env :=
  { okEnv with awsSignerOk := fun _ id => id == "id2" }

/-- Settings whose home chain names a signer that always fails to
resolve (the `Node` sentinel). -/
def c1Settings : Settings :=
  ⟨"dbpath", none, ⟨none, none, .Updates, false⟩, chainA, [],
   [("alpha", SignerConf.Node)]⟩

/-- Settings where both the home chain "alpha" and the replica chain
"beta" name signers that always fail to resolve (the `Node`
sentinel). -/
def c1RepSettings : Settings :=
  ⟨"dbpath", none, ⟨none, none, .Updates, false⟩, chainA,
   [("beta", chainB)],
   [("alpha", SignerConf.Node), ("beta", SignerConf.Node)]⟩

/-- Oracle under which opening the database fails. -/
def c9ErrEnv : Env :=
  { okEnv with dbOk := fun _ => false }

/-- The agent core assembled from `c1Settings` under the benign
oracle. -/
def c9Core : AgentCore :=
  ⟨⟨⟨"alpha", none, none⟩,
    ⟨"kathy", "alpha", ⟨"connA", ⟨"alpha", 1000, "0xaa"⟩, none, none, 0,
      1999⟩, c1Settings.index, 5⟩⟩,
   [], "dbpath", c1Settings, c1Settings.index⟩

/-- Settings whose only replica is enabled but keyed by "x" while its
embedded name is "beta". -/
def c5Settings : Settings :=
  ⟨"dbpath", none, ⟨none, none, .Updates, false⟩, chainA,
   [("x", chainB)], []⟩

/-- Settings with one enabled replica ("beta") and one disabled replica
("gamma"). -/
def c6Settings : Settings :=
  ⟨"dbpath", none, ⟨none, none, .Updates, false⟩, chainA,
   [("beta", chainB), ("gamma", chainC)], []⟩

/-! Claim C4: timelag is per chain. -/

/-- Claim C4: for every Settings, with timelag disabled `home_timelag`
and `replica_timelag` return no timelag regardless of configured
finality; with timelag enabled `home_timelag` is exactly the home's own
finality and, for every replica name present in the replicas map,
`replica_timelag` is exactly that replica's own finality — never the
home's finality for a replica or a replica's for the home. -/
theorem timelag_per_chain (s : Settings) :
    (s.index.use_timelag = false →
      s.home_timelag = none ∧ ∀ r, s.replica_timelag r = .ok none) ∧
    (s.index.use_timelag = true →
      s.home_timelag = some s.home.finality ∧
      ∀ r setup, s.replicas.lookup r = some setup →
        s.replica_timelag r = .ok (some setup.finality)) := by
  constructor
  · intro h
    constructor
    · simp [Settings.home_timelag, IndexSettings.timelag_on, h]
    · intro r
      simp [Settings.replica_timelag, IndexSettings.timelag_on, h]
  · intro h
    constructor
    · simp [Settings.home_timelag, IndexSettings.timelag_on, h]
    · intro r setup hr
      simp [Settings.replica_timelag, IndexSettings.timelag_on, h, hr]

/-- Witness for C4 at concrete settings: timelag is on, the home's
timelag is its own finality 5 and replica "beta"'s timelag is its own
finality 7. -/
theorem timelag_per_chain_witness :
    sampleSettings.index.use_timelag = true ∧
    sampleSettings.home_timelag = .some 5 ∧
    sampleSettings.replica_timelag "beta" = .ok (some 7) :=
  ⟨by decide,
   ((timelag_per_chain sampleSettings).2 (by decide)).1,
   ((timelag_per_chain sampleSettings).2 (by decide)).2 "beta" chainB
     (by decide)⟩

/-! Claim C10: `replica_timelag` requires the name to be a key. -/

/-- Claim C10: with timelag enabled, a replica name present in the
replicas map makes `replica_timelag` return normally (the panic branch
is unreachable), while a name absent from the map makes the lookup's
`expect` panic — in `replica_timelag` itself and hence in `try_replica`
and `try_replica_contract_sync` — instead of returning `None` or a
descriptive error. -/
theorem replica_timelag_requires_key (s : Settings) (env : Env)
    (hlag : s.index.use_timelag = true) :
    (∀ name setup, s.replicas.lookup name = some setup →
      s.replica_timelag name = .ok (some setup.finality)) ∧
    (∀ name, s.replicas.lookup name = none →
      s.replica_timelag name = .panic "!replica" ∧
      (∀ st, s.try_replica env name st = (.panic "!replica", st)) ∧
      (∀ agent st, s.try_replica_contract_sync env name agent st =
        (.panic "!replica", st))) := by
  constructor
  · intro name setup hr
    simp [Settings.replica_timelag, IndexSettings.timelag_on, hlag, hr]
  · intro name hr
    refine ⟨?_, ?_, ?_⟩
    · simp [Settings.replica_timelag, IndexSettings.timelag_on, hlag, hr]
    · intro st
      simp [Settings.try_replica, hr]
    · intro agent st
      simp [Settings.try_replica_contract_sync, hr]

/-- Witness for C10 at concrete settings: "beta" is a key and its
timelag resolves to its finality; "delta" is absent and all three
functions panic with "!replica". -/
theorem replica_timelag_requires_key_witness :
    sampleSettings.index.use_timelag = true ∧
    sampleSettings.replica_timelag "beta" = .ok (some 7) ∧
    sampleSettings.replica_timelag "delta" = .panic "!replica" ∧
    sampleSettings.try_replica okEnv "delta" none =
      (.panic "!replica", none) :=
  ⟨by decide,
   (replica_timelag_requires_key sampleSettings okEnv (by decide)).1 "beta"
     chainB (by decide),
   ((replica_timelag_requires_key sampleSettings okEnv (by decide)).2 "delta"
     (by decide)).1,
   ((replica_timelag_requires_key sampleSettings okEnv (by decide)).2 "delta"
     (by decide)).2.1 none⟩

/-! Claim C8: OrderedList draws. -/

/-- One iteration step of `gen_chat_iter`. -/
theorem gen_chat_iter_succ (g : ChatGenerator) (rng : Rng) (n : Nat) :
    g.gen_chat_iter rng (n + 1) =
      ((g.gen_chat rng).1 :: ((g.gen_chat rng).2.gen_chat_iter rng n).1,
       ((g.gen_chat rng).2.gen_chat_iter rng n).2) := rfl

/-- Auxiliary: iterating `gen_chat` on an `OrderedList` with cursor `c`
for one more draw than the remaining messages yields exactly the
remaining messages' bodies in order followed by one `none`. -/
theorem gen_chat_iter_orderedList_aux (msgs : List String) (rng : Rng) :
    ∀ k c, k = msgs.length - c →
    ((ChatGenerator.OrderedList msgs c).gen_chat_iter rng (k + 1)).1 =
      (msgs.drop c).map (fun s => some (strBytes s)) ++ [none] := by
  intro k
  induction k with
  | zero =>
    intro c hc
    have hlen : msgs.length ≤ c := by omega
    simp [ChatGenerator.gen_chat_iter, ChatGenerator.gen_chat, hlen,
      List.drop_eq_nil_of_le hlen]
  | succ k ih =>
    intro c hc
    have hlt : c < msgs.length := by omega
    have hnot : ¬ msgs.length ≤ c := by omega
    have hstep : (ChatGenerator.OrderedList msgs c).gen_chat rng =
        (some (strBytes (msgs.get ⟨c, hlt⟩)),
         .OrderedList msgs (c + 1)) := by
      simp [ChatGenerator.gen_chat, hnot]
    have hrec := ih (c + 1) (by omega)
    rw [gen_chat_iter_succ, hstep]
    simp only []
    rw [List.drop_eq_getElem_cons hlt]
    simp only [List.map_cons, List.cons_append, List.get_eq_getElem]
    rw [hrec]

/-- Claim C8: for an `OrderedList` generator holding `N` messages with
counter `0`, the first `N` draws return exactly the messages' bodies in
original order, and the `(N+1)`-th draw returns no body. -/
theorem orderedList_draws (msgs : List String) (rng : Rng) :
    ((ChatGenerator.OrderedList msgs 0).gen_chat_iter rng
        (msgs.length + 1)).1 =
      msgs.map (fun s => some (strBytes s)) ++ [none] := by
  have h := gen_chat_iter_orderedList_aux msgs rng msgs.length 0 (by omega)
  simpa using h

/-! Claim C7: per-agent fixed index policy. -/

/-- Claim C7: the agent-kind policy is applied after all configuration
sources are merged and overwrites user-supplied values: whatever the
merged sources contained, a Kathy settings object ends with
`data_types = Updates` and `use_timelag = false`, and a Processor
settings object ends with `data_types = UpdatesAndMessages` and
`use_timelag = true`. -/
theorem agent_policy_overrides (merged : RunResult Settings) :
    (∀ s, declSettingsNew .Kathy merged = .ok s →
      s.index.data_types = .Updates ∧ s.index.use_timelag = false) ∧
    (∀ s, declSettingsNew .Processor merged = .ok s →
      s.index.data_types = .UpdatesAndMessages ∧
      s.index.use_timelag = true) := by
  constructor <;> intro s h <;>
    cases merged with
    | panic m => simp [declSettingsNew] at h
    | error m => simp [declSettingsNew] at h
    | ok s₀ =>
      simp [declSettingsNew] at h
      subst h
      simp [applyAgentPolicy, Settings.set_index_data_types,
        Settings.set_use_timelag]

/-- Witness for C7: applying the macro-generated `new` tail to merged
user settings that requested `UpdatesAndMessages`/timelag-on yields
`Updates`/timelag-off for Kathy, and on settings requesting the
opposite yields `UpdatesAndMessages`/timelag-on for Processor. -/
theorem agent_policy_overrides_witness :
    (applyAgentPolicy .Kathy mergedUserSettings).index.data_types =
        .Updates ∧
    (applyAgentPolicy .Kathy mergedUserSettings).index.use_timelag =
        false ∧
    (applyAgentPolicy .Processor sampleSettings).index.data_types =
        .UpdatesAndMessages ∧
    (applyAgentPolicy .Processor sampleSettings).index.use_timelag =
        true :=
  ⟨((agent_policy_overrides (.ok mergedUserSettings)).1
      (applyAgentPolicy .Kathy mergedUserSettings) rfl).1,
   ((agent_policy_overrides (.ok mergedUserSettings)).1
      (applyAgentPolicy .Kathy mergedUserSettings) rfl).2,
   ((agent_policy_overrides (.ok sampleSettings)).2
      (applyAgentPolicy .Processor sampleSettings) rfl).1,
   ((agent_policy_overrides (.ok sampleSettings)).2
      (applyAgentPolicy .Processor sampleSettings) rfl).2⟩

/-! Claim C2: the process-wide KMS client. -/

/-- Claim C2 (amended): the KMS client is created at most once per
process — with the cell already filled, an Aws resolution reuses the
cached client unchanged (whatever region the call carries) and any
returned signer is bound to the cached client's region; with the cell
empty, an Aws resolution (successful or not at the `AwsSigner::new`
step) creates the client from its own region. -/
theorem kms_client_cached (env : Env) (id region : String) (c : KmsClient) :
    ((SignerConf.Aws id region).try_into_signer env (some c)).2 = some c ∧
    ((SignerConf.Aws id region).try_into_signer env (some c)).1 =
      (if env.awsSignerOk c.region id then .ok (.Aws c.region id)
       else .error "aws signer") ∧
    (env.regionValid region = true →
      ((SignerConf.Aws id region).try_into_signer env none).2 =
        some ⟨region⟩) := by
  refine ⟨rfl, rfl, ?_⟩
  intro h
  simp [SignerConf.try_into_signer, h]

/-- Witness for C2's theorem at concrete inputs: a second resolution
carrying region "us" against a client cached with region "eu" leaves
the cache unchanged and signs with "eu"; a first resolution with a
valid region "eu" caches a client with region "eu". -/
theorem kms_client_cached_witness :
    ((SignerConf.Aws "id2" "us").try_into_signer okEnv
        (some ⟨"eu"⟩)).2 = some ⟨"eu"⟩ ∧
    ((SignerConf.Aws "id2" "us").try_into_signer okEnv (some ⟨"eu"⟩)).1 =
      (if okEnv.awsSignerOk "eu" "id2" then .ok (.Aws "eu" "id2")
       else .error "aws signer") ∧
    okEnv.regionValid "eu" = true ∧
    ((SignerConf.Aws "id1" "eu").try_into_signer okEnv none).2 =
      some ⟨"eu"⟩ :=
  ⟨(kms_client_cached okEnv "id2" "us" ⟨"eu"⟩).1,
   (kms_client_cached okEnv "id2" "us" ⟨"eu"⟩).2.1,
   rfl,
   (kms_client_cached okEnv "id1" "eu" ⟨"eu"⟩).2.2 rfl⟩

/-- Claim C2 counterexample: the first Aws resolution (key "id1",
region "eu") fails at the `AwsSigner::new` step yet creates and caches
the client with region "eu"; the first successful resolution is the
second call, which supplies region "us", but the cached client — and
the signer it returns — use region "eu", not the region supplied at the
first successful resolution. -/
theorem kms_region_not_first_success :
    (SignerConf.Aws "id1" "eu").try_into_signer c2Env none =
      (.error "aws signer", some ⟨"eu"⟩) ∧
    (SignerConf.Aws "id2" "us").try_into_signer c2Env (some ⟨"eu"⟩) =
      (.ok (.Aws "eu" "id2"), some ⟨"eu"⟩) ∧
    "eu" ≠ "us" := by
  refine ⟨rfl, rfl, by decide⟩

/-! Claim C1: signer resolution failure and chain construction. -/

/-- Claim C1 counterexample: resolving the signers named for the home
chain "alpha" and for the replica chain "beta" fails (`Node` always
errors), yet `try_home` and `try_replica` both succeed — the home and
the replica are built with no signer instead of the error surfacing
for those chains. -/
theorem signer_failure_not_fatal :
    (SignerConf.Node.try_into_signer okEnv none).1 =
      .error "Node signer" ∧
    c1RepSettings.signers.lookup c1RepSettings.home.name =
      some SignerConf.Node ∧
    c1RepSettings.get_signer okEnv c1RepSettings.home.name none =
      (.ok none, none) ∧
    c1RepSettings.try_home okEnv none =
      (.ok ⟨"alpha", none, none⟩, none) ∧
    c1RepSettings.signers.lookup "beta" = some SignerConf.Node ∧
    c1RepSettings.get_signer okEnv "beta" none = (.ok none, none) ∧
    c1RepSettings.try_replica okEnv "beta" none =
      (.ok ⟨"beta", none, none⟩, none) := by
  refine ⟨rfl, by decide, rfl, rfl, by decide, rfl, rfl⟩

/-- Claim C1 (amended): a signer-resolution error is not fatal to the
chain being configured — `get_signer` swallows the error into an absent
signer, and the chain's home or replica object is then built with no
signer (construction proceeds exactly as if no signer were
configured); resolution for a chain depends only on that chain's own
signer entry, so other chains' resolution attempts are unaffected. -/
theorem signer_failure_yields_no_signer (s : Settings) (env : Env)
    (st : Option KmsClient) (name : String) (conf : SignerConf)
    (msg : String) (hconf : s.signers.lookup name = some conf)
    (herr : (conf.try_into_signer env st).1 = .error msg) :
    s.get_signer env name st = (.ok none, (conf.try_into_signer env st).2) ∧
    (name = s.home.name →
      s.try_home env st =
        (s.home.try_into_home none s.home_timelag env,
         (conf.try_into_signer env st).2)) ∧
    (∀ setup tl, s.replicas.lookup name = some setup →
      s.replica_timelag name = .ok tl →
      s.try_replica env name st =
        (setup.try_into_replica none tl env,
         (conf.try_into_signer env st).2)) ∧
    (∀ s' : Settings, s'.signers = s.signers →
      s'.get_signer env name st = s.get_signer env name st) := by
  rcases hpair : conf.try_into_signer env st with ⟨r, st₂⟩
  have hr : r = .error msg := by rw [hpair] at herr; exact herr
  subst hr
  have hget : s.get_signer env name st = (.ok none, st₂) := by
    simp [Settings.get_signer, hconf, hpair]
  refine ⟨by simpa [hpair] using hget, ?_, ?_, ?_⟩
  · intro hname
    rw [hname] at hget
    simp [Settings.try_home, hget]
  · intro setup tl hset htl
    simp [Settings.try_replica, hset, hget, htl]
  · intro s' hs
    simp [Settings.get_signer, hs]

/-- Witness for C1's amended theorem at the concrete settings: the
home's and replica "beta"'s signer entries are `Node`, their resolution
errors, `get_signer` returns no signer, `try_home` builds the home with
no signer and `try_replica` builds the replica with no signer. -/
theorem signer_failure_yields_no_signer_witness :
    c1RepSettings.signers.lookup "alpha" = some SignerConf.Node ∧
    c1RepSettings.signers.lookup "beta" = some SignerConf.Node ∧
    (SignerConf.Node.try_into_signer okEnv none).1 =
      .error "Node signer" ∧
    c1RepSettings.get_signer okEnv "alpha" none =
      (.ok none, (SignerConf.Node.try_into_signer okEnv none).2) ∧
    c1RepSettings.try_home okEnv none =
      (c1RepSettings.home.try_into_home none c1RepSettings.home_timelag
        okEnv, (SignerConf.Node.try_into_signer okEnv none).2) ∧
    c1RepSettings.replicas.lookup "beta" = some chainB ∧
    c1RepSettings.replica_timelag "beta" = .ok none ∧
    c1RepSettings.try_replica okEnv "beta" none =
      (chainB.try_into_replica none none okEnv,
       (SignerConf.Node.try_into_signer okEnv none).2) :=
  ⟨by decide, by decide, rfl,
   (signer_failure_yields_no_signer c1RepSettings okEnv none "alpha"
     SignerConf.Node "Node signer" (by decide) rfl).1,
   (signer_failure_yields_no_signer c1RepSettings okEnv none "alpha"
     SignerConf.Node "Node signer" (by decide) rfl).2.1 rfl,
   by decide, rfl,
   (signer_failure_yields_no_signer c1RepSettings okEnv none "beta"
     SignerConf.Node "Node signer" (by decide) rfl).2.2.1 chainB none
     (by decide) rfl⟩

/-! Claim C9: `from_settings` failure behaviour. -/

/-- Claim C9 counterexample: with an interval string that is not a
valid `u64`, `from_settings` panics (`expect("invalid u64")`, an
ungraceful process abort) instead of surfacing an error result to the
caller. -/
theorem from_settings_panics_on_bad_interval :
    (kathyFromSettings ⟨sampleSettings, "oops", .Default⟩ okEnv none).1 =
      .panic "invalid u64" := rfl

/-- Claim C9 (amended): `from_settings` never swallows a failure with a
default: an interval string that is not a valid `u64` causes a panic
(process abort — not an error result), a failure inside
`try_into_core` surfaces as an error result, and on success the parsed
interval and the configured chat generator are used verbatim. -/
theorem from_settings_propagation (ks : KathySettings) (env : Env)
    (st : Option KmsClient) :
    (parseRustNat u64Max ks.interval = none →
      (kathyFromSettings ks env st).1 = .panic "invalid u64") ∧
    (∀ n msg st', parseRustNat u64Max ks.interval = some n →
      ks.base.try_into_core env "kathy" st = (.error msg, st') →
      kathyFromSettings ks env st = (.error msg, st')) ∧
    (∀ n core st', parseRustNat u64Max ks.interval = some n →
      ks.base.try_into_core env "kathy" st = (.ok core, st') →
      env.metricRegisterOk = true →
      kathyFromSettings ks env st = (.ok ⟨n, ks.chat, core⟩, st')) := by
  refine ⟨?_, ?_, ?_⟩
  · intro h
    simp [kathyFromSettings, h]
  · intro n msg st' hn hcore
    simp [kathyFromSettings, hn, hcore]
  · intro n core st' hn hcore hreg
    simp [kathyFromSettings, hn, hcore, hreg]

/-- Witness for C9's amended theorem at concrete inputs: the interval
"oops" does not parse and yields the panic; with interval "7" and a
failing database the core-assembly error propagates; with interval "5"
and the benign oracle the agent is built with interval `5`. -/
theorem from_settings_propagation_witness :
    parseRustNat u64Max "oops" = none ∧
    (kathyFromSettings ⟨sampleSettings, "oops", .Default⟩ okEnv none).1 =
      .panic "invalid u64" ∧
    kathyFromSettings ⟨sampleSettings, "7", .Default⟩ c9ErrEnv none =
      (.error "DB::from_path", none) ∧
    kathyFromSettings ⟨c1Settings, "5", .Default⟩ okEnv none =
      (.ok ⟨5, .Default, c9Core⟩, none) :=
  ⟨rfl,
   (from_settings_propagation ⟨sampleSettings, "oops", .Default⟩ okEnv
     none).1 rfl,
   (from_settings_propagation ⟨sampleSettings, "7", .Default⟩ c9ErrEnv
     none).2.1 7 "DB::from_path" none rfl rfl,
   (from_settings_propagation ⟨c1Settings, "5", .Default⟩ okEnv
     none).2.2 5 c9Core none rfl rfl rfl⟩

/-! Claim C3: the Kathy channel task on an OrderedList generator. -/

/-- One iteration step of the Kathy channel loop. -/
theorem kathyRun_succ (env : Env) (rng : Rng) (destination : Nat)
    (generator : ChatGenerator) (fuel : Nat) :
    kathyRun env rng destination generator (fuel + 1) =
      (match (generator.gen_chat rng).1 with
       | some body =>
         if env.dispatchOk destination
             ((generator.gen_chat rng).2.gen_recipient rng) body then
           let rest := kathyRun env rng destination
             (generator.gen_chat rng).2 fuel
           ⟨⟨destination, (generator.gen_chat rng).2.gen_recipient rng,
              body⟩ :: rest.dispatched, rest.counterIncs + 1, rest.outcome⟩
         else ⟨[⟨destination,
           (generator.gen_chat rng).2.gen_recipient rng, body⟩], 0,
           .fail "dispatch"⟩
       | none => ⟨[], 0, .ok⟩) := rfl

/-- Auxiliary for C3: from cursor `c`, with every dispatch succeeding
and enough fuel, the channel task dispatches exactly the remaining
messages in order, increments the counter once per message, and
terminates successfully. -/
theorem kathyRun_orderedList_aux (env : Env) (rng : Rng) (dest : Nat)
    (hdisp : ∀ d r b, env.dispatchOk d r b = true) (msgs : List String) :
    ∀ k c fuel, k = msgs.length - c → k + 1 ≤ fuel →
    kathyRun env rng dest (.OrderedList msgs c) fuel =
      ⟨(msgs.drop c).map (fun s => (⟨dest, 0, strBytes s⟩ : Message)),
       msgs.length - c, .ok⟩ := by
  intro k
  induction k with
  | zero =>
    intro c fuel hc hfuel
    obtain ⟨fuel', rfl⟩ : ∃ f, fuel = f + 1 := by
      cases fuel with
      | zero => omega
      | succ f => exact ⟨f, rfl⟩
    have hlen : msgs.length ≤ c := by omega
    rw [kathyRun_succ]
    have hchat : (ChatGenerator.OrderedList msgs c).gen_chat rng =
        (none, .OrderedList msgs c) := by
      simp [ChatGenerator.gen_chat, hlen]
    rw [hchat]
    simp [List.drop_eq_nil_of_le hlen, hc.symm, Nat.sub_eq_zero_of_le hlen]
  | succ k ih =>
    intro c fuel hc hfuel
    obtain ⟨fuel', rfl⟩ : ∃ f, fuel = f + 1 := by
      cases fuel with
      | zero => omega
      | succ f => exact ⟨f, rfl⟩
    have hlt : c < msgs.length := by omega
    have hnot : ¬ msgs.length ≤ c := by omega
    have hchat : (ChatGenerator.OrderedList msgs c).gen_chat rng =
        (some (strBytes (msgs.get ⟨c, hlt⟩)),
         .OrderedList msgs (c + 1)) := by
      simp [ChatGenerator.gen_chat, hnot]
    rw [kathyRun_succ, hchat]
    simp only [ChatGenerator.gen_recipient, hdisp, if_true]
    rw [ih (c + 1) fuel' (by omega) (by omega)]
    rw [List.drop_eq_getElem_cons hlt]
    simp only [List.map_cons, List.get_eq_getElem]
    have hcount : msgs.length - (c + 1) + 1 = msgs.length - c := by omega
    simp [hcount]

/-- Claim C3: a Kathy channel whose generator is an `OrderedList` of
`N` messages with cursor `0`, with every home dispatch succeeding and
enough fuel, dispatches exactly the `N` messages to the home in order,
increments the messages-dispatched counter exactly `N` times, and
terminates with success (`ok`, not a failure) without attempting an
`(N+1)`-th dispatch; generator exhaustion is a normal terminal state. -/
theorem kathy_channel_orderedList (env : Env) (rng : Rng) (dest : Nat)
    (msgs : List String) (fuel : Nat)
    (hdisp : ∀ d r b, env.dispatchOk d r b = true)
    (hfuel : msgs.length + 1 ≤ fuel) :
    kathyRun env rng dest (.OrderedList msgs 0) fuel =
      ⟨msgs.map (fun s => (⟨dest, 0, strBytes s⟩ : Message)),
       msgs.length, .ok⟩ := by
  have h := kathyRun_orderedList_aux env rng dest hdisp msgs msgs.length 0
    fuel (by omega) (by omega)
  simpa using h

/-- Witness for C3 at a concrete channel: three messages, interval-free
fuel 4, all dispatches succeeding — exactly the three bodies are
dispatched in order, the counter is incremented three times, and the
task ends in success. -/
theorem kathy_channel_orderedList_witness :
    (∀ d r b, okEnv.dispatchOk d r b = true) ∧
    kathyRun okEnv fixedRng 2000 (.OrderedList ["hi", "ho", "bye"] 0) 4 =
      ⟨[⟨2000, 0, strBytes "hi"⟩, ⟨2000, 0, strBytes "ho"⟩,
        ⟨2000, 0, strBytes "bye"⟩], 3, .ok⟩ :=
  ⟨fun _ _ _ => rfl,
   kathy_channel_orderedList okEnv fixedRng 2000 ["hi", "ho", "bye"] 4
     (fun _ _ _ => rfl) (by decide)⟩

/-! Claims C5 and C6: the replica-assembly loop. -/

/-- In a list with nodup keys, a key determines its value. -/
theorem nodupKeys_unique {α : Type} {l : List (String × α)} {k : String}
    {v v' : α} (hnd : (l.map Prod.fst).Nodup)
    (h1 : (k, v) ∈ l) (h2 : (k, v') ∈ l) : v = v' := by
  induction l with
  | nil => cases h1
  | cons hd tl ih =>
    obtain ⟨a, b⟩ := hd
    simp only [List.map_cons, List.nodup_cons] at hnd
    rcases List.mem_cons.mp h1 with he1 | hm1 <;>
      rcases List.mem_cons.mp h2 with he2 | hm2
    · cases he1; cases he2; rfl
    · cases he1
      exact absurd (List.mem_map_of_mem Prod.fst hm2) (by simpa using hnd.1)
    · cases he2
      exact absurd (List.mem_map_of_mem Prod.fst hm1) (by simpa using hnd.1)
    · exact ih hnd.2 hm1 hm2

/-- The ghost build trace only contains keys of the processed list. -/
theorem cachingReplicasLoop_built_sub (s : Settings) (env : Env)
    (agent : String) :
    ∀ (l : List (String × ChainSetup)) acc st x,
    x ∈ (cachingReplicasLoop s env agent l acc st).2.2 →
    x ∈ l.map Prod.fst := by
  intro l
  induction l with
  | nil => intro acc st x hx; simp [cachingReplicasLoop] at hx
  | cons hd tl ih =>
    intro acc st x hx
    obtain ⟨k₁, v₁⟩ := hd
    by_cases h1 : k₁ = v₁.name
    · subst h1
      rcases hcr : s.try_caching_replica env v₁.name agent st with ⟨r, st₁⟩
      cases r with
      | panic m =>
        simp [cachingReplicasLoop, hcr] at hx
        simp [hx]
      | error m =>
        simp [cachingReplicasLoop, hcr] at hx
        simp [hx]
      | ok cr =>
        rcases hE : cachingReplicasLoop s env agent tl
          (acc ++ [(v₁.name, cr)]) st₁ with ⟨res, st₂, built⟩
        simp [cachingReplicasLoop, hcr, hE] at hx
        rcases hx with hx | hx
        · simp [hx]
        · have := ih (acc ++ [(v₁.name, cr)]) st₁ x (by rw [hE]; exact hx)
          simp [this]
    · simp [cachingReplicasLoop, h1] at hx

/-- A successful loop result extends the accumulator. -/
theorem cachingReplicasLoop_acc_sub (s : Settings) (env : Env)
    (agent : String) :
    ∀ (l : List (String × ChainSetup)) acc st m st' built,
    cachingReplicasLoop s env agent l acc st = (.ok m, st', built) →
    ∀ p, p ∈ acc → p ∈ m := by
  intro l
  induction l with
  | nil =>
    intro acc st m st' built h p hp
    simp [cachingReplicasLoop] at h
    rw [← h.1]; exact hp
  | cons hd tl ih =>
    intro acc st m st' built h p hp
    obtain ⟨k₁, v₁⟩ := hd
    by_cases h1 : k₁ = v₁.name
    · subst h1
      rcases hcr : s.try_caching_replica env v₁.name agent st with ⟨r, st₁⟩
      cases r with
      | panic msg => simp [cachingReplicasLoop, hcr] at h
      | error msg => simp [cachingReplicasLoop, hcr] at h
      | ok cr =>
        rcases hE : cachingReplicasLoop s env agent tl
          (acc ++ [(v₁.name, cr)]) st₁ with ⟨res, st₂, built₂⟩
        simp only [cachingReplicasLoop, ne_eq, not_true_eq_false, if_false,
          hcr, hE] at h
        injection h with hres h2
        injection h2 with hst hbuilt
        exact ih (acc ++ [(v₁.name, cr)]) st₁ m st₂ built₂
          (by rw [hE, hres]) p (List.mem_append_left _ hp)
    · simp [cachingReplicasLoop, h1] at h

/-- A successful loop run means every processed entry passed the
key/name check. -/
theorem cachingReplicasLoop_keys_match (s : Settings) (env : Env)
    (agent : String) :
    ∀ (l : List (String × ChainSetup)) acc st m st' built,
    cachingReplicasLoop s env agent l acc st = (.ok m, st', built) →
    ∀ k₁ v₁, (k₁, v₁) ∈ l → k₁ = v₁.name := by
  intro l
  induction l with
  | nil => intro acc st m st' built _ k₁ v₁ hm; cases hm
  | cons hd tl ih =>
    intro acc st m st' built h k₁ v₁ hm
    obtain ⟨k₀, v₀⟩ := hd
    by_cases h1 : k₀ = v₀.name
    · subst h1
      rcases hcr : s.try_caching_replica env v₀.name agent st with ⟨r, st₁⟩
      cases r with
      | panic msg => simp [cachingReplicasLoop, hcr] at h
      | error msg => simp [cachingReplicasLoop, hcr] at h
      | ok cr =>
        rcases hE : cachingReplicasLoop s env agent tl
          (acc ++ [(v₀.name, cr)]) st₁ with ⟨res, st₂, built₂⟩
        simp only [cachingReplicasLoop, ne_eq, not_true_eq_false, if_false,
          hcr, hE] at h
        injection h with hres h2
        rcases List.mem_cons.mp hm with he | hmt
        · rw [Prod.mk.injEq] at he
          rw [he.1, he.2]
        · exact ih (acc ++ [(v₀.name, cr)]) st₁ m st₂ built₂
            (by rw [hE, hres]) k₁ v₁ hmt
    · simp [cachingReplicasLoop, h1] at h

/-- On a successful loop run, every processed entry's replica appears
in the result keyed by its embedded name. -/
theorem cachingReplicasLoop_all_inserted (s : Settings) (env : Env)
    (agent : String) :
    ∀ (l : List (String × ChainSetup)) acc st m st' built,
    cachingReplicasLoop s env agent l acc st = (.ok m, st', built) →
    ∀ k₁ v₁, (k₁, v₁) ∈ l → ∃ x, (v₁.name, x) ∈ m := by
  intro l
  induction l with
  | nil => intro acc st m st' built _ k₁ v₁ hm; cases hm
  | cons hd tl ih =>
    intro acc st m st' built h k₁ v₁ hm
    obtain ⟨k₀, v₀⟩ := hd
    by_cases h1 : k₀ = v₀.name
    · subst h1
      rcases hcr : s.try_caching_replica env v₀.name agent st with ⟨r, st₁⟩
      cases r with
      | panic msg => simp [cachingReplicasLoop, hcr] at h
      | error msg => simp [cachingReplicasLoop, hcr] at h
      | ok cr =>
        rcases hE : cachingReplicasLoop s env agent tl
          (acc ++ [(v₀.name, cr)]) st₁ with ⟨res, st₂, built₂⟩
        simp only [cachingReplicasLoop, ne_eq, not_true_eq_false, if_false,
          hcr, hE] at h
        injection h with hres h2
        have hok : cachingReplicasLoop s env agent tl
            (acc ++ [(v₀.name, cr)]) st₁ = (.ok m, st₂, built₂) := by
          rw [hE, hres]
        rcases List.mem_cons.mp hm with he | hmt
        · rw [Prod.mk.injEq] at he
          rw [he.2]
          exact ⟨cr, cachingReplicasLoop_acc_sub s env agent tl _ st₁ m st₂
            built₂ hok (v₀.name, cr)
            (List.mem_append_right _ (by simp))⟩
        · exact ih (acc ++ [(v₀.name, cr)]) st₁ m st₂ built₂ hok k₁ v₁ hmt
    · simp [cachingReplicasLoop, h1] at h

/-- On a successful loop run, every result entry comes from the
accumulator or is keyed by some processed entry's embedded name. -/
theorem cachingReplicasLoop_ok_keys (s : Settings) (env : Env)
    (agent : String) :
    ∀ (l : List (String × ChainSetup)) acc st m st' built,
    cachingReplicasLoop s env agent l acc st = (.ok m, st', built) →
    ∀ p, p ∈ m → p ∈ acc ∨ ∃ k₁ v₁, (k₁, v₁) ∈ l ∧ p.1 = v₁.name := by
  intro l
  induction l with
  | nil =>
    intro acc st m st' built h p hp
    simp [cachingReplicasLoop] at h
    rw [← h.1] at hp
    exact Or.inl hp
  | cons hd tl ih =>
    intro acc st m st' built h p hp
    obtain ⟨k₀, v₀⟩ := hd
    by_cases h1 : k₀ = v₀.name
    · subst h1
      rcases hcr : s.try_caching_replica env v₀.name agent st with ⟨r, st₁⟩
      cases r with
      | panic msg => simp [cachingReplicasLoop, hcr] at h
      | error msg => simp [cachingReplicasLoop, hcr] at h
      | ok cr =>
        rcases hE : cachingReplicasLoop s env agent tl
          (acc ++ [(v₀.name, cr)]) st₁ with ⟨res, st₂, built₂⟩
        simp only [cachingReplicasLoop, ne_eq, not_true_eq_false, if_false,
          hcr, hE] at h
        injection h with hres h2
        have hok : cachingReplicasLoop s env agent tl
            (acc ++ [(v₀.name, cr)]) st₁ = (.ok m, st₂, built₂) := by
          rw [hE, hres]
        rcases ih (acc ++ [(v₀.name, cr)]) st₁ m st₂ built₂ hok p hp with
          hacc | ⟨k₂, v₂, hm₂, hname₂⟩
        · rcases List.mem_append.mp hacc with hl | hr
          · exact Or.inl hl
          · right
            refine ⟨v₀.name, v₀, by simp, ?_⟩
            simp only [List.mem_singleton] at hr
            rw [hr]
        · exact Or.inr ⟨k₂, v₂, List.mem_cons_of_mem _ hm₂, hname₂⟩
    · simp [cachingReplicasLoop, h1] at h

/-- If the processed list contains a key/name mismatch and building
each processed replica succeeds, the loop ends in the descriptive
configuration error (never a panic, never success). -/
theorem cachingReplicasLoop_mismatch (s : Settings) (env : Env)
    (agent : String) :
    ∀ (l : List (String × ChainSetup)) acc st k v,
    (∀ k₁ v₁ st₀, (k₁, v₁) ∈ l → ∃ cr st₁,
      s.try_caching_replica env k₁ agent st₀ = (.ok cr, st₁)) →
    (k, v) ∈ l → k ≠ v.name →
    ∃ msg, (cachingReplicasLoop s env agent l acc st).1 = .error msg := by
  intro l
  induction l with
  | nil => intro acc st k v _ hmem; cases hmem
  | cons hd tl ih =>
    intro acc st k v hbuild hmem hne
    obtain ⟨k₀, v₀⟩ := hd
    by_cases h1 : k₀ = v₀.name
    · subst h1
      obtain ⟨cr, st₁, hcr⟩ :=
        hbuild v₀.name v₀ st (List.mem_cons_self _ _)
      have hmem' : (k, v) ∈ tl := by
        rcases List.mem_cons.mp hmem with he | hmt
        · rw [Prod.mk.injEq] at he
          exact absurd (he.1.trans (by rw [he.2])) hne
        · exact hmt
      obtain ⟨msg, hmsg⟩ := ih (acc ++ [(v₀.name, cr)]) st₁ k v
        (fun k₂ v₂ st₀ hm => hbuild k₂ v₂ st₀ (List.mem_cons_of_mem _ hm))
        hmem' hne
      rcases hE : cachingReplicasLoop s env agent tl
        (acc ++ [(v₀.name, cr)]) st₁ with ⟨res, st₂, built₂⟩
      rw [hE] at hmsg
      refine ⟨msg, ?_⟩
      simp only [cachingReplicasLoop, ne_eq, not_true_eq_false, if_false,
        hcr, hE]
      exact hmsg
    · refine ⟨"Replica key does not match replica name:\n key: " ++ k₀ ++
        "  name: " ++ v₀.name, ?_⟩
      simp [cachingReplicasLoop, h1]

/-- Claim C5: for every Settings whose replicas map contains an enabled
replica whose key differs from its embedded name, `try_into_core` (via
`try_caching_replicas`) fails with a descriptive configuration error —
a graceful error result, not a panic — and returns no AgentCore.  The
hypotheses pin the surrounding steps (metrics port, metrics registry,
database, home and replica construction) as succeeding, isolating the
mismatch as the failure. -/
theorem try_into_core_replica_mismatch (s : Settings) (env : Env)
    (agent : String) (st : Option KmsClient) (k : String) (v : ChainSetup)
    (hmem : (k, v) ∈ s.replicas) (hen : v.disabled = none)
    (hne : k ≠ v.name)
    (hport : ∀ p, s.metrics = some p → (parseRustNat u16Max p).isSome)
    (hmet : env.coreMetricsOk = true) (hdb : env.dbOk s.db = true)
    (hhome : ∀ st₀, ∃ ch st₁,
      s.try_caching_home env agent st₀ = (.ok ch, st₁))
    (hrep : ∀ k₁ v₁ st₀, (k₁, v₁) ∈ s.replicas → ∃ cr st₁,
      s.try_caching_replica env k₁ agent st₀ = (.ok cr, st₁)) :
    ∃ msg, (s.try_into_core env agent st).1 = .error msg := by
  have hmemf : (k, v) ∈ s.replicas.filter (fun p => p.2.disabled.isNone) :=
    List.mem_filter.mpr ⟨hmem, by simp [hen]⟩
  obtain ⟨ch, st₁, hch⟩ := hhome st
  obtain ⟨msg, hmsg⟩ := cachingReplicasLoop_mismatch s env agent
    (s.replicas.filter (fun p => p.2.disabled.isNone)) [] st₁ k v
    (fun k₁ v₁ st₀ hm => hrep k₁ v₁ st₀ (List.mem_filter.mp hm).1)
    hmemf hne
  refine ⟨msg, ?_⟩
  have hloop : (s.try_caching_replicas env agent st₁).1 = .error msg := hmsg
  rcases hL : s.try_caching_replicas env agent st₁ with ⟨res, st₂, built₂⟩
  rw [hL] at hloop
  cases hmconf : s.metrics with
  | none =>
    simp only [Settings.try_into_core, hmconf, hmet, hdb, hch, hL,
      Bool.not_true, Bool.false_eq_true, if_false]
    rw [show res = RunResult.error msg from hloop]
  | some pstr =>
    obtain ⟨p, hp⟩ := Option.isSome_iff_exists.mp (hport pstr hmconf)
    simp only [Settings.try_into_core, hmconf, hp, hmet, hdb, hch, hL,
      Bool.not_true, Bool.false_eq_true, if_false]
    rw [show res = RunResult.error msg from hloop]

/-- Witness for C5 at the concrete mismatched settings: the mismatch
hypotheses hold and core assembly fails with a graceful error. -/
theorem try_into_core_replica_mismatch_witness :
    ("x", chainB) ∈ c5Settings.replicas ∧ chainB.disabled = none ∧
    "x" ≠ chainB.name ∧
    ∃ msg, (c5Settings.try_into_core okEnv "kathy" none).1 =
      .error msg :=
  ⟨by decide, by decide, by decide,
   try_into_core_replica_mismatch c5Settings okEnv "kathy" none "x" chainB
     (by decide) (by decide) (by decide)
     (fun p hp => by simp [c5Settings] at hp)
     rfl rfl
     (fun st₀ => ⟨_, st₀, rfl⟩)
     (fun k₁ v₁ st₀ hm => by
       simp only [c5Settings, List.mem_singleton, Prod.mk.injEq] at hm
       obtain ⟨rfl, rfl⟩ := hm
       exact ⟨_, st₀, rfl⟩)⟩

/-- Claim C6: disabled replicas (explicit disabled marker) are skipped
entirely during core assembly — no signer resolution, indexer or
ContractSync build is even attempted for them (ghost build trace) and
their key never appears in the assembled replica map — while every
enabled replica appears in the map keyed by its embedded name. -/
theorem disabled_replicas_skipped (s : Settings) (env : Env)
    (agent : String) (st : Option KmsClient)
    (hnodup : (s.replicas.map Prod.fst).Nodup) :
    (∀ k v, (k, v) ∈ s.replicas → v.disabled.isSome →
      k ∉ (s.try_caching_replicas env agent st).2.2) ∧
    (∀ m st' built,
      s.try_caching_replicas env agent st = (.ok m, st', built) →
      (∀ k v, (k, v) ∈ s.replicas → v.disabled.isSome →
        ∀ x, (k, x) ∉ m) ∧
      (∀ k v, (k, v) ∈ s.replicas → v.disabled = none →
        ∃ x, (v.name, x) ∈ m)) := by
  have hkey : ∀ k v, (k, v) ∈ s.replicas → v.disabled.isSome →
      k ∉ (s.replicas.filter (fun p => p.2.disabled.isNone)).map
        Prod.fst := by
    intro k v hm hdis hk
    obtain ⟨⟨k', v'⟩, hmf, hfst⟩ := List.mem_map.mp hk
    obtain ⟨hmem', hfil⟩ := List.mem_filter.mp hmf
    have hk' : k' = k := hfst
    rw [hk'] at hmem'
    have hv : v' = v := nodupKeys_unique hnodup hmem' hm
    rw [hv] at hfil
    rw [Option.isSome_iff_exists] at hdis
    obtain ⟨b, hb⟩ := hdis
    rw [hb] at hfil
    simp at hfil
  constructor
  · intro k v hm hdis hk
    exact hkey k v hm hdis
      (cachingReplicasLoop_built_sub s env agent
        (s.replicas.filter (fun p => p.2.disabled.isNone)) [] st k hk)
  · intro m st' built hok
    have hok' : cachingReplicasLoop s env agent
        (s.replicas.filter (fun p => p.2.disabled.isNone)) [] st =
        (.ok m, st', built) := hok
    constructor
    · intro k v hm hdis x hx
      rcases cachingReplicasLoop_ok_keys s env agent _ [] st m st' built
        hok' (k, x) hx with hacc | ⟨k₁, v₁, hm₁, hname₁⟩
      · cases hacc
      · have hk₁ : k₁ = v₁.name :=
          cachingReplicasLoop_keys_match s env agent _ [] st m st' built
            hok' k₁ v₁ hm₁
        refine hkey k v hm hdis ?_
        have : k = v₁.name := hname₁
        rw [this, ← hk₁]
        exact List.mem_map_of_mem Prod.fst hm₁
    · intro k v hm hen
      exact cachingReplicasLoop_all_inserted s env agent _ [] st m st'
        built hok' k v
        (List.mem_filter.mpr ⟨hm, by simp [hen]⟩)

/-- Witness for C6 at the concrete settings: the keys are nodup,
disabled "gamma" never has a build attempted, and it is skipped while
the loop runs. -/
theorem disabled_replicas_skipped_witness :
    (c6Settings.replicas.map Prod.fst).Nodup ∧
    ("gamma", chainC) ∈ c6Settings.replicas ∧
    chainC.disabled.isSome = true ∧
    "gamma" ∉ (c6Settings.try_caching_replicas okEnv "kathy" none).2.2 :=
  ⟨by decide, by decide, by decide,
   (disabled_replicas_skipped c6Settings okEnv "kathy" none
     (by decide)).1 "gamma" chainC (by decide) (by decide)⟩

end Nomad
